import Mathlib

/-!
Shallow embedding of `src/pupil_lsl_diameter_relay.py` (Pupil Labs → LSL
diameter relay plugin).

Modelling conventions:
* Python `float` values are modelled as `ℚ` (the claims under study only
  involve storing, comparing and taking `max` of values, never float
  rounding).
* A Python dict payload is modelled as a record of optional fields; a
  `payload[k]` access on a missing key is a `KeyError`.
* The two-element Python list returned by `_create_buffer` is modelled as a
  pair of slots; Python list-index assignment `buffer[eyeid] = sample` with
  its negative-index semantics (an index `i` with `-2 ≤ i < 0` addresses slot
  `i + 2`; anything outside `[-2, 1]` raises `IndexError`) is encoded in
  `_update_buffer`.
* Exceptions are modelled with `Except PyError`.
-/

/-- Python exceptions that the relay code can raise. -/
inductive PyError where
  | keyError (field : String)
  | indexError
  | attributeError (n : String)
  | unboundLocalError (n : String)
  | transportError
deriving DecidableEq, Repr

/-- The payload mapping of an inbound ZMQ message, as a record of the fields
the relay reads. `none` means the key is absent from the dict. `reprStr`
stands for Python `repr(payload)` (an opaque string rendering). -/
structure Payload where
  id : Option Int := none
  diameter : Option ℚ := none
  confidence : Option ℚ := none
  timestamp : Option ℚ := none
  subject : Option String := none
  reprStr : String := ""
deriving DecidableEq, Repr

/-- Python `payload[k]`: raises `KeyError k` when the key is absent. -/
def dictGet (v : Option α) (k : String) : Except PyError α :=
  match v with
  | some x => Except.ok x
  | none => Except.error (PyError.keyError k)

/-- A `(diameter, confidence, timestamp)` triple, the tuple built by
`_generate_primitive_sample`. -/
abbrev PrimSample := ℚ × ℚ × ℚ

/-- The two-slot pupil buffer: the list
`[(diam0, conf0, ts0), (diam1, conf1, ts1)]` of the source. -/
abbrev BufferState := PrimSample × PrimSample

/-- `_generate_primitive_sample(payload)` of the source:
`payload.get("diameter", -1.0), payload["confidence"], payload["timestamp"]`.
`diameter` falls back to `-1.0`; `confidence` and `timestamp` raise
`KeyError` when absent (in that evaluation order). -/
def generate_primitive_sample (payload : Payload) : Except PyError PrimSample :=
  match payload.confidence with
  | none => Except.error (PyError.keyError "confidence")
  | some c =>
    match payload.timestamp with
    | none => Except.error (PyError.keyError "timestamp")
    | some t => Except.ok (payload.diameter.getD (-1), c, t)

/-- `_create_buffer()` of the source, parameterised over the clock reading
`t0 = lsl.local_clock()`: both slots start as `(-1., 0., t0)`. -/
def create_buffer (t0 : ℚ) : BufferState :=
  ((-1, 0, t0), (-1, 0, t0))

/-- `buffer2sample(buffer)` of the source:
`[buffer[0][0], buffer[1][0], buffer[0][1], buffer[1][1],
  max(buffer[0][2], buffer[1][2])]`. -/
def buffer2sample (buffer : BufferState) : List ℚ :=
  [buffer.1.1, buffer.2.1,
   buffer.1.2.1, buffer.2.2.1,
   max buffer.1.2.2 buffer.2.2.2]

/-- `_update_buffer(eyeid, buffer, sample)` of the source:
`buffer[eyeid] = sample; return buffer`. The buffer is a Python list of
length 2, so index 0 (or -2) replaces the first slot, index 1 (or -1) the
second, and any other index raises `IndexError`. -/
def update_buffer (eyeid : Int) (buffer : BufferState) (sample : PrimSample) :
    Except PyError BufferState :=
  if eyeid = 0 ∨ eyeid = -2 then
    Except.ok (sample, buffer.2)
  else if eyeid = 1 ∨ eyeid = -1 then
    Except.ok (buffer.1, sample)
  else
    Except.error PyError.indexError

/-! ## The relay loop (`thread_loop` of the source)

The loop multiplexes a data channel and a control pipe.  One poll
iteration that found a ready channel is modelled as a step on one `Event`.
Externally observable transport/outlet operations are recorded as a trace
of `Effect`s (logging calls are not modelled as effects).  The whole
`while True` loop of the source runs inside a single
`try ... except Exception ... finally`, so any exception raised in the loop
body escapes the loop: the handler logs it and the `finally` block clears
`self.thread_pipe` (modelled by the `Effect.clearHandle` trace entry). -/

/-- The topic constant `PUPIL_SUB_TOPIC = "pupil."`. -/
def PUPIL_SUB_TOPIC : String := "pupil."

/-- The topic constant `NOTIFY_SUB_TOPIC = "notify."`. -/
def NOTIFY_SUB_TOPIC : String := "notify."

/-- Python `s.startswith(pre)`, computed on the character lists so that it
reduces in the kernel. -/
def pyStartswith (s pre : String) : Bool :=
  pre.toList.isPrefixOf s.toList

/-- A control command received on the pipe.  `other` stands for any string
that is none of `Exit`, `Subscribe`, `Unsubscribe`; the `if/elif` chain
of the source ignores such a command. -/
inductive Cmd where
  | exit
  | subscribe (topic : String)
  | unsubscribe (topic : String)
  | other (s : String)
deriving DecidableEq, Repr

/-- One ready channel seen by a poll iteration: either one inbound data
message `(topic, payload)` or one control command. -/
inductive Event where
  | data (topic : String) (payload : Payload)
  | cmd (c : Cmd)
deriving DecidableEq, Repr

/-- Externally observable operations performed by the loop body.
`openOutlet`/`closeOutlet` are LSL outlet creation/closing (the source
never calls a close), `subscribeT`/`unsubscribeT` are
`inlet.subscribe`/`inlet.unsubscribe`, `pushPupil`/`pushNotify` are
`push_sample` on the respective outlet, and `clearHandle` is
`self.thread_pipe = None` in the `finally` block. -/
inductive Effect where
  | openOutlet (n : String)
  | closeOutlet (n : String)
  | subscribeT (topic : String)
  | unsubscribeT (topic : String)
  | pushPupil (sample : List ℚ)
  | pushNotify (sample : String × String)
  | clearHandle
deriving DecidableEq, Repr

/-- The local variables of `thread_loop` that the loop body reads or
writes.  `pupil_outlet` / `notification_outlet` record whether the
respective handle is an object (`true`) or `None` (`false`).
`pupil_outlets` (note the `s`: a distinct local, assigned only on the
`Subscribe`/`Unsubscribe` branches of the source) and `pupil_buffer` are
`Option`s whose `none` means the local was never assigned, so reading it
raises `UnboundLocalError`; `some b` means it is bound (for
`pupil_outlets`, to a truthy value when `b = true`, to `None` when
`b = false`). -/
structure WorkerState where
  pupil_outlet : Bool
  notification_outlet : Bool
  pupil_outlets : Option Bool
  pupil_buffer : Option BufferState
deriving DecidableEq, Repr

/-- The result of one loop iteration: keep looping with a new state,
`break` out of the loop (the `Exit` command), or an exception escaping the
loop body. -/
inductive StepResult where
  | next (st : WorkerState)
  | brk (st : WorkerState)
  | exn (e : PyError) (st : WorkerState)
deriving DecidableEq, Repr

/-- The setup part of `thread_loop` before the `while` loop: create the
initial outlets and subscriptions according to `relay_pupil` /
`relay_notifications` (pupil first, then notifications, as in the source),
and leave `pupil_outlets` unassigned.  `t0` is the `lsl.local_clock()`
reading used by `_create_buffer`. -/
def initWorker (relay_pupil relay_notifications : Bool) (t0 : ℚ) :
    WorkerState × List Effect :=
  ({ pupil_outlet := relay_pupil
     notification_outlet := relay_notifications
     pupil_outlets := none
     pupil_buffer := if relay_pupil then some (create_buffer t0) else none },
   (if relay_pupil then
      [Effect.openOutlet "Buffered Pupil Diameter",
       Effect.subscribeT PUPIL_SUB_TOPIC]
    else []) ++
   (if relay_notifications then
      [Effect.openOutlet "Notifications",
       Effect.subscribeT NOTIFY_SUB_TOPIC]
    else []))

/-- One iteration of the `while True` body of `thread_loop`, handling one
event.  `pushFails` tells whether a `push_sample` performed in this
iteration raises (the LSL sink being unreachable); a failed push emits no
push effect.  Returned effects are those performed before the iteration
ended (also before an exception). -/
def loopStep (st : WorkerState) (ev : Event) (pushFails : Bool) :
    List Effect × StepResult :=
  match ev with
  | Event.data topic payload =>
    if pyStartswith topic PUPIL_SUB_TOPIC && st.pupil_outlet then
      -- eyeid = payload["id"]
      match dictGet payload.id "id" with
      | Except.error e => ([], StepResult.exn e st)
      | Except.ok eyeid =>
        match generate_primitive_sample payload with
        | Except.error e => ([], StepResult.exn e st)
        | Except.ok sample =>
          -- reading the local pupil_buffer
          match st.pupil_buffer with
          | none => ([], StepResult.exn (PyError.unboundLocalError "pupil_buffer") st)
          | some buf =>
            match update_buffer eyeid buf sample with
            | Except.error e => ([], StepResult.exn e st)
            | Except.ok buf2 =>
              let st2 := { st with pupil_buffer := some buf2 }
              if pushFails then
                ([], StepResult.exn PyError.transportError st2)
              else
                ([Effect.pushPupil (buffer2sample buf2)], StepResult.next st2)
    else if pyStartswith topic NOTIFY_SUB_TOPIC && st.notification_outlet then
      match dictGet payload.subject "subject" with
      | Except.error e => ([], StepResult.exn e st)
      | Except.ok subj =>
        if pushFails then
          ([], StepResult.exn PyError.transportError st)
        else
          ([Effect.pushNotify (subj, payload.reprStr)], StepResult.next st)
    else
      -- logger.debug("Did not handle topic ...")
      ([], StepResult.next st)
  | Event.cmd c =>
    match c with
    | Cmd.exit => ([], StepResult.brk st)
    | Cmd.subscribe topic =>
      -- inlet.subscribe(topic) happens unconditionally first
      if topic = PUPIL_SUB_TOPIC ∧ st.pupil_outlet = false then
        -- pupil_outlets = self._create_pupil_lsl_outlets(): no such method
        ([Effect.subscribeT topic],
         StepResult.exn (PyError.attributeError "_create_pupil_lsl_outlets") st)
      else if topic = NOTIFY_SUB_TOPIC ∧ st.notification_outlet = false then
        -- notification_outlet = self._create_notify_lsl_outlet(): module
        -- function, not a method of the class
        ([Effect.subscribeT topic],
         StepResult.exn (PyError.attributeError "_create_notify_lsl_outlet") st)
      else
        ([Effect.subscribeT topic], StepResult.next st)
    | Cmd.unsubscribe topic =>
      -- inlet.unsubscribe(topic) happens unconditionally first
      if topic = PUPIL_SUB_TOPIC then
        -- `if topic == PUPIL_SUB_TOPIC and pupil_outlets:` reads the local
        -- pupil_outlets, which no reachable path ever assigns
        match st.pupil_outlets with
        | none =>
          ([Effect.unsubscribeT topic],
           StepResult.exn (PyError.unboundLocalError "pupil_outlets") st)
        | some b =>
          if b then
            ([Effect.unsubscribeT topic],
             StepResult.next { st with pupil_outlets := some false })
          else
            ([Effect.unsubscribeT topic], StepResult.next st)
      else if topic = NOTIFY_SUB_TOPIC ∧ st.notification_outlet then
        ([Effect.unsubscribeT topic],
         StepResult.next { st with notification_outlet := false })
      else
        ([Effect.unsubscribeT topic], StepResult.next st)
    | Cmd.other _ => ([], StepResult.next st)

/-- How a run of the loop ended: `exited` = left via `break` (Exit
command), `died e` = an exception `e` escaped the loop body and was logged
by the `except` handler, `pending st` = the supplied events are exhausted
and the loop is blocked at the poll with state `st`. -/
inductive LoopOutcome where
  | exited
  | died (e : PyError)
  | pending (st : WorkerState)
deriving DecidableEq, Repr

/-- Run the loop body over a list of events, each paired with its
`pushFails` flag, accumulating the effect trace. -/
def runEvents (st : WorkerState) : List (Event × Bool) → List Effect × LoopOutcome
  | [] => ([], LoopOutcome.pending st)
  | (ev, pf) :: rest =>
    match loopStep st ev pf with
    | (effs, StepResult.next st2) =>
      let r := runEvents st2 rest
      (effs ++ r.1, r.2)
    | (effs, StepResult.brk _) => (effs, LoopOutcome.exited)
    | (effs, StepResult.exn e _) => (effs, LoopOutcome.died e)

/-- The whole `thread_loop` method over a finite schedule of events:
initial setup, the loop, and — when the loop terminates, normally or by
exception — the `finally` block clearing `self.thread_pipe` (the
`clearHandle` effect).  The source contains no outlet-close or
unsubscribe call on either termination path. -/
def thread_loop (relay_pupil relay_notifications : Bool) (t0 : ℚ)
    (evs : List (Event × Bool)) : List Effect × LoopOutcome :=
  let ini := initWorker relay_pupil relay_notifications t0
  let r := runEvents ini.1 evs
  match r.2 with
  | LoopOutcome.pending st => (ini.2 ++ r.1, LoopOutcome.pending st)
  | LoopOutcome.exited => (ini.2 ++ r.1 ++ [Effect.clearHandle], LoopOutcome.exited)
  | LoopOutcome.died e => (ini.2 ++ r.1 ++ [Effect.clearHandle], LoopOutcome.died e)

/-- Number of `push_sample` calls (on either outlet) recorded in a trace. -/
def pushCount (tr : List Effect) : Nat :=
  (tr.filter fun e =>
    match e with
    | Effect.pushPupil _ => true
    | Effect.pushNotify _ => true
    | _ => false).length

/-- Whether an effect is an outlet close or a transport unsubscribe (the
operations the Draining state of the spec calls for). -/
def isDrainEffect (e : Effect) : Bool :=
  match e with
  | Effect.closeOutlet _ => true
  | Effect.unsubscribeT _ => true
  | _ => false

/-! ## Claim theorems -/

/-- C8: `buffer2sample` (the operation the spec calls `combine`) is total on every
`BufferState` and returns exactly the 5-channel sample
`[value_0, value_1, confidence_0, confidence_1,
  max(timestamp_0, timestamp_1)]`.  (Purity/determinism is inherent: the
source function only reads its argument and the embedding is a pure
function.) -/
theorem C8_combine_formula (b : BufferState) :
    (buffer2sample b).length = 5
    ∧ (buffer2sample b)[0]! = b.1.1
    ∧ (buffer2sample b)[1]! = b.2.1
    ∧ (buffer2sample b)[2]! = b.1.2.1
    ∧ (buffer2sample b)[3]! = b.2.2.1
    ∧ (buffer2sample b)[4]! = max b.1.2.2 b.2.2.2 :=
  ⟨rfl, rfl, rfl, rfl, rfl, rfl⟩

/-- C8 witness: the formula evaluated on a concrete buffer. -/
theorem C8_combine_formula_witness :
    (buffer2sample ((1, 2, 3), (4, 5, 6))).length = 5
    ∧ (buffer2sample ((1, 2, 3), (4, 5, 6)))[0]! = 1
    ∧ (buffer2sample ((1, 2, 3), (4, 5, 6)))[1]! = 4
    ∧ (buffer2sample ((1, 2, 3), (4, 5, 6)))[2]! = 2
    ∧ (buffer2sample ((1, 2, 3), (4, 5, 6)))[3]! = 5
    ∧ (buffer2sample ((1, 2, 3), (4, 5, 6)))[4]! = max 3 6 :=
  C8_combine_formula ((1, 2, 3), (4, 5, 6))

/-- C9: for `i ∈ {0,1}`, a successful `update_buffer` followed by
`buffer2sample` puts the value of the new sample at channel `i` of the combined
sample, and leaves the other slot of the buffer unchanged. -/
theorem C9_update_slot (b b2 : BufferState) (s : PrimSample) (i : Int)
    (h01 : i = 0 ∨ i = 1) (hup : update_buffer i b s = Except.ok b2) :
    (buffer2sample b2)[i.toNat]! = s.1
    ∧ (if i = 0 then b2.2 = b.2 else b2.1 = b.1) := by
  rcases h01 with h | h <;> subst h
  · rw [show update_buffer 0 b s = Except.ok (s, b.2) from rfl] at hup
    injection hup with h2
    subst h2
    exact ⟨rfl, by simp⟩
  · rw [show update_buffer 1 b s = Except.ok (b.1, s) from rfl] at hup
    injection hup with h2
    subst h2
    exact ⟨rfl, by simp⟩

/-- C9 witness: concrete instance with `i = 0`. -/
theorem C9_update_slot_witness :
    (buffer2sample ((7, 8, 9), (4, 5, 6)))[(0 : Int).toNat]! = (7 : ℚ)
    ∧ (if (0 : Int) = 0 then ((7 : ℚ), (8 : ℚ), (9 : ℚ)) = (7, 8, 9)
       else ((4 : ℚ), (5 : ℚ), (6 : ℚ)) = (1, 2, 3)) := by
  have h := C9_update_slot ((1, 2, 3), (4, 5, 6)) ((7, 8, 9), (4, 5, 6))
    (7, 8, 9) 0 (Or.inl rfl) rfl
  simpa using h

/-- C10: Python negative indexing makes `update_buffer` succeed on
source ids `-1` and `-2` without raising: `-1` replaces slot 1 and `-2`
replaces slot 0, exactly as the valid ids `1` and `0` would. -/
theorem C10_negative_index (b : BufferState) (s : PrimSample) :
    update_buffer (-1) b s = Except.ok (b.1, s)
    ∧ update_buffer (-2) b s = Except.ok (s, b.2)
    ∧ update_buffer (-1) b s = update_buffer 1 b s
    ∧ update_buffer (-2) b s = update_buffer 0 b s :=
  ⟨rfl, rfl, rfl, rfl⟩

/-- C7 counterexample: `update_buffer` does not fail for the out-of-range
source id `-1`: Python negative indexing replaces slot 1, and the relay
loop pushes a combined sample built from it and keeps running. -/
theorem C7_counterexample :
    update_buffer (-1) ((1, 2, 3), (4, 5, 6)) (7, 8, 9)
      = Except.ok ((1, 2, 3), (7, 8, 9))
    ∧ thread_loop true false 0
        [(Event.data "pupil.0"
            { id := some (-1), diameter := some 7, confidence := some 8,
              timestamp := some 9 }, false)]
      = ([Effect.openOutlet "Buffered Pupil Diameter", Effect.subscribeT "pupil.",
          Effect.pushPupil [-1, 7, 0, 8, 9]],
         LoopOutcome.pending
           { pupil_outlet := true, notification_outlet := false,
             pupil_outlets := none,
             pupil_buffer := some ((-1, 0, 0), (7, 8, 9)) }) :=
  ⟨rfl, by decide⟩

/-- C7 (amended): `update_buffer` raises `IndexError` (not an
`InvalidSourceIdError`) exactly for source ids outside `[-2, 1]`; for ids
`0` and `1` it replaces exactly that slot; and a message whose id is out of
range kills the relay loop (the exception escapes and the worker
terminates) instead of being logged, dropped and survived. -/
theorem C7_index_semantics (i : Int) (b : BufferState) (s : PrimSample)
    (h : i < -2 ∨ 1 < i) :
    update_buffer i b s = Except.error PyError.indexError
    ∧ update_buffer 0 b s = Except.ok (s, b.2)
    ∧ update_buffer 1 b s = Except.ok (b.1, s)
    ∧ (thread_loop true false 0
        [(Event.data "pupil.0"
            { id := some i, confidence := some 1, timestamp := some 0 }, false)]).2
      = LoopOutcome.died PyError.indexError := by
  have h1 : ¬(i = 0 ∨ i = -2) := by omega
  have h2 : ¬(i = 1 ∨ i = -1) := by omega
  refine ⟨by simp [update_buffer, h1, h2], rfl, rfl, ?_⟩
  simp [thread_loop, initWorker, runEvents, loopStep, dictGet,
        generate_primitive_sample, update_buffer, h1, h2,
        show pyStartswith "pupil.0" PUPIL_SUB_TOPIC = true from by decide]

/-- C7 witness: the amended statement at the concrete out-of-range id 2. -/
theorem C7_index_semantics_witness :
    update_buffer 2 ((1, 2, 3), (4, 5, 6)) (7, 8, 9)
      = Except.error PyError.indexError
    ∧ update_buffer 0 ((1, 2, 3), (4, 5, 6)) (7, 8, 9)
      = Except.ok ((7, 8, 9), (4, 5, 6))
    ∧ update_buffer 1 ((1, 2, 3), (4, 5, 6)) (7, 8, 9)
      = Except.ok ((1, 2, 3), (7, 8, 9))
    ∧ (thread_loop true false 0
        [(Event.data "pupil.0"
            { id := some 2, confidence := some 1, timestamp := some 0 }, false)]).2
      = LoopOutcome.died PyError.indexError :=
  C7_index_semantics 2 ((1, 2, 3), (4, 5, 6)) (7, 8, 9) (by decide)

/-- C10 witness: concrete instance. -/
theorem C10_negative_index_witness :
    update_buffer (-1) ((1, 2, 3), (4, 5, 6)) (7, 8, 9)
      = Except.ok ((1, 2, 3), (7, 8, 9))
    ∧ update_buffer (-2) ((1, 2, 3), (4, 5, 6)) (7, 8, 9)
      = Except.ok ((7, 8, 9), (4, 5, 6))
    ∧ update_buffer (-1) ((1, 2, 3), (4, 5, 6)) (7, 8, 9)
      = update_buffer 1 ((1, 2, 3), (4, 5, 6)) (7, 8, 9)
    ∧ update_buffer (-2) ((1, 2, 3), (4, 5, 6)) (7, 8, 9)
      = update_buffer 0 ((1, 2, 3), (4, 5, 6)) (7, 8, 9) :=
  C10_negative_index ((1, 2, 3), (4, 5, 6)) (7, 8, 9)

/-- C1 counterexample: with the pupil role enabled, a pupil message whose
payload lacks `confidence` does not get dropped with the loop continuing:
the `KeyError` escapes the loop, the worker dies, and the following
well-formed message is never processed (no push appears in the trace). -/
theorem C1_counterexample :
    thread_loop true false 0
      [(Event.data "pupil.0" { id := some 0, timestamp := some 100 }, false),
       (Event.data "pupil.0"
          { id := some 0, diameter := some 3, confidence := some 1,
            timestamp := some 100 }, false)]
    = ([Effect.openOutlet "Buffered Pupil Diameter", Effect.subscribeT "pupil.",
        Effect.clearHandle],
       LoopOutcome.died (PyError.keyError "confidence")) := by
  decide

/-- C1 (amended): a data message lacking a mandatory payload field
(`confidence` or `timestamp` for a pupil message with the pupil role
enabled, `subject` for a notification with the notification role enabled)
raises a `KeyError` that escapes the relay loop: the outer handler logs it
and the worker terminates, so no subsequent message is processed and
nothing is pushed. -/
theorem C1_missing_field_kills_loop (rn rp : Bool) (t0 : ℚ) (p q r : Payload)
    (i j : Int) (c : ℚ) (rest rest2 rest3 : List (Event × Bool))
    (hpid : p.id = some i) (hpconf : p.confidence = none)
    (hqid : q.id = some j) (hqconf : q.confidence = some c)
    (hqts : q.timestamp = none)
    (hrsubj : r.subject = none) :
    ((thread_loop true rn t0 ((Event.data "pupil.0" p, false) :: rest)).2
      = LoopOutcome.died (PyError.keyError "confidence")
    ∧ pushCount (thread_loop true rn t0 ((Event.data "pupil.0" p, false) :: rest)).1 = 0)
    ∧ ((thread_loop true rn t0 ((Event.data "pupil.0" q, false) :: rest2)).2
      = LoopOutcome.died (PyError.keyError "timestamp")
    ∧ pushCount (thread_loop true rn t0 ((Event.data "pupil.0" q, false) :: rest2)).1 = 0)
    ∧ ((thread_loop rp true t0 ((Event.data "notify.x" r, false) :: rest3)).2
      = LoopOutcome.died (PyError.keyError "subject")
    ∧ pushCount (thread_loop rp true t0 ((Event.data "notify.x" r, false) :: rest3)).1 = 0) := by
  have hps : pyStartswith "pupil.0" PUPIL_SUB_TOPIC = true := by decide
  have hns1 : pyStartswith "notify.x" PUPIL_SUB_TOPIC = false := by decide
  have hns2 : pyStartswith "notify.x" NOTIFY_SUB_TOPIC = true := by decide
  refine ⟨?_, ?_, ?_⟩
  · cases rn <;>
      simp [thread_loop, initWorker, runEvents, loopStep, dictGet,
            generate_primitive_sample, pushCount, hps, hpid, hpconf]
  · cases rn <;>
      simp [thread_loop, initWorker, runEvents, loopStep, dictGet,
            generate_primitive_sample, pushCount, hps, hqid, hqconf, hqts]
  · cases rp <;>
      simp [thread_loop, initWorker, runEvents, loopStep, dictGet,
            generate_primitive_sample, pushCount, hns1, hns2, hrsubj]

/-- C1 witness: the amended statement at concrete malformed payloads. -/
theorem C1_missing_field_kills_loop_witness :
    ((thread_loop true false 0
        [(Event.data "pupil.0" { id := some 0, timestamp := some 5 }, false)]).2
      = LoopOutcome.died (PyError.keyError "confidence")
    ∧ pushCount (thread_loop true false 0
        [(Event.data "pupil.0" { id := some 0, timestamp := some 5 }, false)]).1 = 0)
    ∧ ((thread_loop true false 0
        [(Event.data "pupil.0" { id := some 0, confidence := some 1 }, false)]).2
      = LoopOutcome.died (PyError.keyError "timestamp")
    ∧ pushCount (thread_loop true false 0
        [(Event.data "pupil.0" { id := some 0, confidence := some 1 }, false)]).1 = 0)
    ∧ ((thread_loop false true 0
        [(Event.data "notify.x" { reprStr := "x" }, false)]).2
      = LoopOutcome.died (PyError.keyError "subject")
    ∧ pushCount (thread_loop false true 0
        [(Event.data "notify.x" { reprStr := "x" }, false)]).1 = 0) :=
  C1_missing_field_kills_loop false false 0
    { id := some 0, timestamp := some 5 }
    { id := some 0, confidence := some 1 }
    { reprStr := "x" } 0 0 1 [] [] [] rfl rfl rfl rfl rfl rfl

/-- C2 (code evaluation for the code_bug): the enable/disable/enable cycle
for the pupil role never reaches a recreated outlet or a reset buffer.
Starting with the role enabled, the `Unsubscribe` step reads the
never-assigned local `pupil_outlets` and dies with `UnboundLocalError`;
starting with the role disabled, the `Subscribe` step calls the
nonexistent method `_create_pupil_lsl_outlets` and dies with
`AttributeError`. -/
theorem C2_reenable_cycle_crashes :
    thread_loop true false 0
      [(Event.cmd (Cmd.subscribe PUPIL_SUB_TOPIC), false),
       (Event.cmd (Cmd.unsubscribe PUPIL_SUB_TOPIC), false),
       (Event.cmd (Cmd.subscribe PUPIL_SUB_TOPIC), false)]
    = ([Effect.openOutlet "Buffered Pupil Diameter", Effect.subscribeT "pupil.",
        Effect.subscribeT "pupil.", Effect.unsubscribeT "pupil.",
        Effect.clearHandle],
       LoopOutcome.died (PyError.unboundLocalError "pupil_outlets"))
    ∧ thread_loop false false 0
        [(Event.cmd (Cmd.subscribe PUPIL_SUB_TOPIC), false)]
      = ([Effect.subscribeT "pupil.", Effect.clearHandle],
         LoopOutcome.died (PyError.attributeError "_create_pupil_lsl_outlets")) := by
  exact ⟨by decide, by decide⟩

/-- C3 counterexample: a `Subscribe` command for the already-enabled pupil
role opens no duplicate outlet and leaves the registry unchanged, but the
transport ends up with TWO subscribe calls for the topic across the two
enables (the initial one and the command), not exactly one. -/
theorem C3_counterexample :
    ((thread_loop true false 0
        [(Event.cmd (Cmd.subscribe PUPIL_SUB_TOPIC), false),
         (Event.cmd Cmd.exit, false)]).1.count (Effect.subscribeT "pupil.")) = 2
    ∧ ((thread_loop true false 0
        [(Event.cmd (Cmd.subscribe PUPIL_SUB_TOPIC), false),
         (Event.cmd Cmd.exit, false)]).1.count
          (Effect.openOutlet "Buffered Pupil Diameter")) = 1 := by
  exact ⟨by decide, by decide⟩

/-- C3 (amended): processing `Subscribe` for an already-enabled pupil role
leaves the worker state (outlet registry and buffer) unchanged and opens
no duplicate outlet, but it invokes the transport subscribe once per
command, so two enable calls subscribe the transport twice, not once. -/
theorem C3_enable_when_enabled (st : WorkerState) (b : Bool)
    (h : st.pupil_outlet = true) :
    loopStep st (Event.cmd (Cmd.subscribe PUPIL_SUB_TOPIC)) b
      = ([Effect.subscribeT PUPIL_SUB_TOPIC], StepResult.next st) := by
  simp [loopStep, h, show ¬(PUPIL_SUB_TOPIC = NOTIFY_SUB_TOPIC) from by decide]

/-- C3 witness: the amended statement at the initial enabled state. -/
theorem C3_enable_when_enabled_witness :
    loopStep (initWorker true false 0).1
        (Event.cmd (Cmd.subscribe PUPIL_SUB_TOPIC)) false
      = ([Effect.subscribeT PUPIL_SUB_TOPIC],
         StepResult.next (initWorker true false 0).1) :=
  C3_enable_when_enabled (initWorker true false 0).1 false rfl

/-- C4 (code evaluation for the code_bug): `Unsubscribe` for the
never-enabled pupil role is not a harmless no-op: the branch reads the
never-assigned local `pupil_outlets` and the loop dies with
`UnboundLocalError` (after having already invoked the transport
unsubscribe).  For contrast, `Unsubscribe` for the disabled notification
role does keep the loop alive (a later `Exit` is still processed). -/
theorem C4_unsubscribe_disabled_crashes :
    thread_loop false false 0
      [(Event.cmd (Cmd.unsubscribe PUPIL_SUB_TOPIC), false)]
    = ([Effect.unsubscribeT "pupil.", Effect.clearHandle],
       LoopOutcome.died (PyError.unboundLocalError "pupil_outlets"))
    ∧ (thread_loop false false 0
        [(Event.cmd (Cmd.unsubscribe NOTIFY_SUB_TOPIC), false),
         (Event.cmd Cmd.exit, false)]).2 = LoopOutcome.exited := by
  exact ⟨by decide, by decide⟩

/-- C5 counterexample: with the notification role enabled, an `Exit`
command clears the worker handle without any outlet having been closed and
without any topic having been unsubscribed — the trace between startup and
`clearHandle` contains neither operation. -/
theorem C5_counterexample :
    thread_loop false true 0 [(Event.cmd Cmd.exit, false)]
      = ([Effect.openOutlet "Notifications", Effect.subscribeT "notify.",
          Effect.clearHandle], LoopOutcome.exited)
    ∧ Effect.unsubscribeT "notify."
        ∉ (thread_loop false true 0 [(Event.cmd Cmd.exit, false)]).1
    ∧ Effect.closeOutlet "Notifications"
        ∉ (thread_loop false true 0 [(Event.cmd Cmd.exit, false)]).1 := by
  exact ⟨by decide, by decide, by decide⟩

/-- C5 (amended): an `Exit` command makes the loop break and the worker
clear its handle (`clearHandle` is the last trace entry), but no outlet
close and no unsubscribe is performed on the way out, however many roles
were enabled: outlet handles are only dropped implicitly with the local
variables of the thread. -/
theorem C5_exit_no_draining (rp rn b : Bool) (t0 : ℚ) :
    (thread_loop rp rn t0 [(Event.cmd Cmd.exit, b)]).2 = LoopOutcome.exited
    ∧ ((thread_loop rp rn t0 [(Event.cmd Cmd.exit, b)]).1.filter isDrainEffect) = []
    ∧ (thread_loop rp rn t0 [(Event.cmd Cmd.exit, b)]).1.getLast?
        = some Effect.clearHandle := by
  cases rp <;> cases rn <;> exact ⟨rfl, rfl, rfl⟩

/-- C5 witness: the amended statement with both roles enabled. -/
theorem C5_exit_no_draining_witness :
    (thread_loop true true 0 [(Event.cmd Cmd.exit, false)]).2
      = LoopOutcome.exited
    ∧ ((thread_loop true true 0 [(Event.cmd Cmd.exit, false)]).1.filter
        isDrainEffect) = []
    ∧ (thread_loop true true 0 [(Event.cmd Cmd.exit, false)]).1.getLast?
        = some Effect.clearHandle :=
  C5_exit_no_draining true true false 0

/-- C6 counterexample: with the pupil role enabled, a failing
`push_sample` (`TransportError`) on a well-formed message is fatal: the
loop dies, and a following well-formed message is never pushed (the trace
contains no push at all). -/
theorem C6_counterexample :
    thread_loop true false 0
      [(Event.data "pupil.0"
          { id := some 0, diameter := some 3, confidence := some 1,
            timestamp := some 100 }, true),
       (Event.data "pupil.1"
          { id := some 1, diameter := some 4, confidence := some 1,
            timestamp := some 101 }, false)]
    = ([Effect.openOutlet "Buffered Pupil Diameter", Effect.subscribeT "pupil.",
        Effect.clearHandle],
       LoopOutcome.died PyError.transportError) := by
  decide

/-- C6 (amended): a `TransportError` raised by `push_sample` escapes the
relay loop: the outer handler logs it and the worker terminates (handle
cleared), so the loop does not continue to the next poll iteration and no
further sample is pushed. -/
theorem C6_push_failure_kills_loop (rn : Bool) (t0 : ℚ) (p : Payload) (c t : ℚ)
    (rest : List (Event × Bool))
    (hid : p.id = some 0) (hc : p.confidence = some c) (ht : p.timestamp = some t) :
    (thread_loop true rn t0 ((Event.data "pupil.0" p, true) :: rest)).2
      = LoopOutcome.died PyError.transportError
    ∧ pushCount (thread_loop true rn t0 ((Event.data "pupil.0" p, true) :: rest)).1 = 0 := by
  cases rn <;>
    simp [thread_loop, initWorker, runEvents, loopStep, dictGet,
          generate_primitive_sample, update_buffer, pushCount, hid, hc, ht,
          show pyStartswith "pupil.0" PUPIL_SUB_TOPIC = true from by decide]

/-- C6 witness: the amended statement at a concrete well-formed payload. -/
theorem C6_push_failure_kills_loop_witness :
    (thread_loop true false 0
      [(Event.data "pupil.0"
          { id := some 0, diameter := some 3, confidence := some 1,
            timestamp := some 100 }, true)]).2
      = LoopOutcome.died PyError.transportError
    ∧ pushCount (thread_loop true false 0
        [(Event.data "pupil.0"
            { id := some 0, diameter := some 3, confidence := some 1,
              timestamp := some 100 }, true)]).1 = 0 :=
  C6_push_failure_kills_loop false 0
    { id := some 0, diameter := some 3, confidence := some 1,
      timestamp := some 100 } 1 100 [] rfl rfl rfl
